import Mathlib

/-!
Verification of the rule-based post classifier in `backend/insights/unwrap.py`
and `backend/scraper/unwrap.py`.

Text is modelled as a list of Unicode code points (`List Nat`).  Python's
substring test `k in t` is modelled by list-infix containment; `str.lower()`
is modelled on its ASCII fragment (every string literal appearing in the
rule lists is ASCII); `re.sub(r"\s+", " ", text)` is modelled by an explicit
left-to-right scan that emits one space per maximal whitespace run.
-/

namespace Unwrap

/-- Code points of a Lean string literal; used to write the rule lists with
the same literals as the Python source. -/
def codes (s : String) : List Nat := s.data.map Char.toNat

/-- Python's substring test `k in t`, as a Boolean on code-point lists. -/
def containsSub (k t : List Nat) : Bool := decide (k <:+: t)

/-- Whitespace as matched by Python's `\s` on `str` (the Unicode
White_Space code points together with the FS/GS/RS/US separators). -/
def isPySpace (n : Nat) : Bool :=
  n == 9 || n == 10 || n == 11 || n == 12 || n == 13 || n == 28 || n == 29 || n == 30 ||
  n == 31 || n == 32 || n == 133 || n == 160 || n == 5760 || (8192 ≤ n && n ≤ 8202) ||
  n == 8232 || n == 8233 || n == 8239 || n == 8287 || n == 12288

/-- ASCII fragment of Python's `str.lower`: map A-Z (65-90) to a-z. -/
def lowerChar (n : Nat) : Nat := if 65 ≤ n ∧ n ≤ 90 then n + 32 else n

/-- Left-to-right scan implementing `re.sub(r"\s+", " ", text)`: `inRun`
records whether the previous character belonged to a whitespace run whose
single replacement space has already been emitted. -/
def collapseAux : Bool → List Nat → List Nat
  | _, [] => []
  | inRun, c :: cs =>
    if isPySpace c then
      if inRun then collapseAux true cs else 32 :: collapseAux true cs
    else c :: collapseAux false cs

/-- `normalize` from both `unwrap.py` files (the two copies are identical):
empty input yields the empty string, otherwise lowercase then collapse
whitespace runs to single spaces. -/
def normalize (text : List Nat) : List Nat :=
  if text = [] then [] else collapseAux false (text.map lowerChar)

/-- The Python `Post` dataclass (identical in both files). -/
structure Post where
  subreddit : List Nat
  title : List Nat
  selftext : List Nat
  score : Int
  num_comments : Int
  url : List Nat
deriving DecidableEq

/-- The five theme labels returned by `assign_theme`.  The source returns
the Python strings given by `Theme.label`; the enumeration names follow the
spec's `Theme` enumeration. -/
inductive Theme
  | WiringAndPower
  | Communication
  | AnalogAndSensors
  | BuildCompileErrors
  | GeneralBeginnerHelp
deriving DecidableEq

/-- The exact label string the source returns for each theme. -/
def Theme.label : Theme → List Nat
  | Theme.WiringAndPower => codes "Wiring & Power"
  | Theme.Communication => codes "Communication"
  | Theme.AnalogAndSensors => codes "Analog & Sensors"
  | Theme.BuildCompileErrors => codes "Build / Compile Errors"
  | Theme.GeneralBeginnerHelp => codes "General Beginner Help"

/-- The local `t = normalize(post.title + " " + post.selftext)` computed at
the top of `matches_keywords` and `assign_theme` in both files. -/
def matchText (post : Post) : List Nat :=
  normalize (post.title ++ codes " " ++ post.selftext)

namespace Insights

/-- `BAD_PHRASES` from `backend/insights/unwrap.py` (`\x27` is the
apostrophe). -/
def BAD_PHRASES : List (List Nat) :=
  [codes "i made", codes "huge update", codes "update to my", codes "project update",
   codes "showcase", codes "tutorial", codes "built this", codes "my journey"]

/-- `HELP_SIGNALS` from `backend/insights/unwrap.py`. -/
def HELP_SIGNALS : List (List Nat) :=
  [codes "help", codes "not working", codes "doesn\x27t work", codes "doesnt work",
   codes "cant", codes "can\x27t", codes "error", codes "problem", codes "beginner",
   codes "newbie", codes "how do i", codes "why", codes "confused", codes "issue",
   codes "fail", codes "unable"]

/-- The canonical 15-term `KEYWORDS` list from `backend/insights/unwrap.py`. -/
def KEYWORDS : List (List Nat) :=
  [codes "arduino", codes "esp32", codes "stm32", codes "microcontroller",
   codes "embedded", codes "gpio", codes "i2c", codes "spi", codes "uart",
   codes "serial", codes "firmware", codes "sensor", codes "adc", codes "pwm",
   codes "breadboard"]

/-- `matches_keywords` from `backend/insights/unwrap.py`: reject on any bad
phrase, require a help signal, then require an embedded keyword. -/
def matches_keywords (post : Post) : Bool :=
  let t := matchText post
  if BAD_PHRASES.any (fun phrase => containsSub phrase t) then false
  else if HELP_SIGNALS.any (fun signal => containsSub signal t) then
    KEYWORDS.any (fun keyword => containsSub keyword t)
  else false

/-- Group 1 of `assign_theme` (power/wiring). -/
def WIRING_GROUP : List (List Nat) :=
  [codes "power", codes "voltage", codes "battery", codes "5v", codes "3.3v"]

/-- Group 2 of `assign_theme` (communication protocols). -/
def COMM_GROUP : List (List Nat) :=
  [codes "i2c", codes "spi", codes "uart", codes "serial", codes "can"]

/-- Group 3 of `assign_theme` (analog/sensors). -/
def ANALOG_GROUP : List (List Nat) :=
  [codes "sensor", codes "adc", codes "analog", codes "voltage divider"]

/-- Group 4 of `assign_theme` (build/flash errors). -/
def ERROR_GROUP : List (List Nat) :=
  [codes "error", codes "compile", codes "upload", codes "flash"]

/-- `assign_theme` from `backend/insights/unwrap.py`: first-match decision
list over the four groups, with `GeneralBeginnerHelp` as fallback. -/
def assign_theme (post : Post) : Theme :=
  let t := matchText post
  if WIRING_GROUP.any (fun k => containsSub k t) then Theme.WiringAndPower
  else if COMM_GROUP.any (fun k => containsSub k t) then Theme.Communication
  else if ANALOG_GROUP.any (fun k => containsSub k t) then Theme.AnalogAndSensors
  else if ERROR_GROUP.any (fun k => containsSub k t) then Theme.BuildCompileErrors
  else Theme.GeneralBeginnerHelp

end Insights

namespace Scraper

/-- `BAD_PHRASES` from `backend/scraper/unwrap.py` (narrower variant). -/
def BAD_PHRASES : List (List Nat) :=
  [codes "i made", codes "huge update", codes "showcase", codes "tutorial",
   codes "built this"]

/-- `HELP_SIGNALS` from `backend/scraper/unwrap.py` (narrower variant). -/
def HELP_SIGNALS : List (List Nat) :=
  [codes "help", codes "not working", codes "error", codes "problem",
   codes "beginner", codes "issue"]

/-- `KEYWORDS` from `backend/scraper/unwrap.py` (narrower 8-term variant). -/
def KEYWORDS : List (List Nat) :=
  [codes "arduino", codes "esp32", codes "stm32", codes "microcontroller",
   codes "embedded", codes "uart", codes "i2c", codes "spi"]

/-- `matches_keywords` from `backend/scraper/unwrap.py`. -/
def matches_keywords (post : Post) : Bool :=
  let t := matchText post
  if BAD_PHRASES.any (fun phrase => containsSub phrase t) then false
  else if HELP_SIGNALS.any (fun signal => containsSub signal t) then
    KEYWORDS.any (fun keyword => containsSub keyword t)
  else false

/-- Group 1 of the scraper's `assign_theme` (power/wiring; same as insights). -/
def WIRING_GROUP : List (List Nat) :=
  [codes "power", codes "voltage", codes "battery", codes "5v", codes "3.3v"]

/-- Group 2 of the scraper's `assign_theme` (communication; same as insights). -/
def COMM_GROUP : List (List Nat) :=
  [codes "i2c", codes "spi", codes "uart", codes "serial", codes "can"]

/-- Group 3 of the scraper's `assign_theme`: build/flash errors — checked
BEFORE the analog/sensor group, unlike the insights variant. -/
def ERROR_GROUP : List (List Nat) :=
  [codes "error", codes "compile", codes "upload", codes "flash"]

/-- Group 4 of the scraper's `assign_theme` (analog/sensors, without
"voltage divider"). -/
def ANALOG_GROUP : List (List Nat) :=
  [codes "sensor", codes "adc", codes "analog"]

/-- `assign_theme` from `backend/scraper/unwrap.py`: the error group is
tested before the analog/sensor group. -/
def assign_theme (post : Post) : Theme :=
  let t := matchText post
  if WIRING_GROUP.any (fun k => containsSub k t) then Theme.WiringAndPower
  else if COMM_GROUP.any (fun k => containsSub k t) then Theme.Communication
  else if ERROR_GROUP.any (fun k => containsSub k t) then Theme.BuildCompileErrors
  else if ANALOG_GROUP.any (fun k => containsSub k t) then Theme.AnalogAndSensors
  else Theme.GeneralBeginnerHelp

end Scraper

/-- Specification-side whitespace collapse, following the spec's wording
"collapse every maximal run of whitespace characters into a single space":
on meeting a whitespace character, emit one space and skip the rest of the
run with `dropWhile`.  The fuel argument only bounds recursion depth;
`specCollapseF_eq_collapseAux` shows any fuel ≥ length gives the intended
function. -/
def specCollapseF : Nat → List Nat → List Nat
  | 0, _ => []
  | _ + 1, [] => []
  | fuel + 1, c :: cs =>
    if isPySpace c then 32 :: specCollapseF fuel (cs.dropWhile isPySpace)
    else c :: specCollapseF fuel cs

/-- Specification-side collapse at adequate fuel. -/
def specCollapse (l : List Nat) : List Nat := specCollapseF l.length l

/-- Specification-side normalization, following the spec's wording: fold to
lowercase, then replace each maximal whitespace run by one space. -/
def specNormalize (s : List Nat) : List Nat := specCollapse (s.map lowerChar)

/-! ### Concrete posts used by witnesses and the counterexample -/

/-- A post whose text mentions a sensor and an error but nothing from the
power/wiring or communication groups. -/
def postSensorError : Post :=
  { subreddit := [], title := codes "sensor error", selftext := [],
    score := 0, num_comments := 0, url := [] }

/-- A post mentioning both "voltage" and "error". -/
def postVoltageError : Post :=
  { subreddit := [], title := codes "voltage error on upload", selftext := [],
    score := 0, num_comments := 0, url := [] }

/-- The spec's fallback example post. -/
def postFallback : Post :=
  { subreddit := [], title := codes "Help, my microcontroller project has an issue, beginner here",
    selftext := [], score := 0, num_comments := 0, url := [] }

/-- A post containing "serialization" but no standalone "serial" token. -/
def postSerialization : Post :=
  { subreddit := [], title := codes "Confused about serialization,help", selftext := [],
    score := 0, num_comments := 0, url := [] }

/-- Two posts equal in `title` and `selftext` but different everywhere else. -/
def postMetaA : Post :=
  { subreddit := codes "arduino", title := codes "help with esp32 gpio", selftext := codes "why",
    score := 5, num_comments := 2, url := codes "https://a" }

/-- See `postMetaA`. -/
def postMetaB : Post :=
  { subreddit := codes "embedded", title := codes "help with esp32 gpio", selftext := codes "why",
    score := -3, num_comments := 9, url := codes "https://b" }

/-- A post containing "voltage divider". -/
def postVoltageDivider : Post :=
  { subreddit := [], title := codes "is my voltage divider wrong", selftext := [],
    score := 0, num_comments := 0, url := [] }

/-- A post containing "can" only inside "cant". -/
def postCant : Post :=
  { subreddit := [], title := codes "cant get my code to compile", selftext := [],
    score := 0, num_comments := 0, url := [] }

/-! ### Helper lemmas -/

theorem anyContains_iff {G : List (List Nat)} {t : List Nat} :
    G.any (fun k => containsSub k t) = true ↔ ∃ k ∈ G, k <:+: t := by
  simp [List.any_eq_true, containsSub]

theorem containsSub_iff (k t : List Nat) : containsSub k t = true ↔ k <:+: t := by
  simp [containsSub]

theorem isPySpace_space : isPySpace 32 = true := by decide

theorem collapseAux_true_eq (l : List Nat) :
    collapseAux true l = collapseAux false (l.dropWhile isPySpace) := by
  induction l with
  | nil => rfl
  | cons c cs ih =>
    by_cases h : isPySpace c = true
    · simp [collapseAux, h, List.dropWhile_cons, ih]
    · simp [collapseAux, h, List.dropWhile_cons]

theorem specCollapseF_eq_collapseAux : ∀ (fuel : Nat) (l : List Nat), l.length ≤ fuel →
    specCollapseF fuel l = collapseAux false l := by
  intro fuel
  induction fuel with
  | zero =>
    intro l hl
    have : l = [] := List.eq_nil_of_length_eq_zero (Nat.le_zero.mp hl)
    subst this; rfl
  | succ n ih =>
    intro l hl
    match l with
    | [] => rfl
    | c :: cs =>
      simp only [List.length_cons, Nat.succ_le_succ_iff] at hl
      by_cases h : isPySpace c = true
      · have hd : (cs.dropWhile isPySpace).length ≤ n :=
          le_trans (List.dropWhile_suffix isPySpace).sublist.length_le hl
        simp only [specCollapseF, collapseAux, if_pos h, Bool.false_eq_true, ite_false]
        rw [ih _ hd, collapseAux_true_eq]
      · simp only [specCollapseF, collapseAux, if_neg h]
        rw [ih _ hl]

theorem specCollapse_eq_collapseAux (l : List Nat) : specCollapse l = collapseAux false l :=
  specCollapseF_eq_collapseAux l.length l le_rfl

theorem collapseAux_idem (l : List Nat) :
    collapseAux false (collapseAux false l) = collapseAux false l ∧
    collapseAux true (collapseAux true l) = collapseAux true l := by
  induction l with
  | nil => exact ⟨rfl, rfl⟩
  | cons c cs ih =>
    by_cases h : isPySpace c = true
    · exact ⟨by simp [collapseAux, h, isPySpace_space, ih.2],
        by simp [collapseAux, h, ih.2]⟩
    · exact ⟨by simp [collapseAux, h, ih.1], by simp [collapseAux, h, ih.1]⟩

theorem mem_collapseAux {c : Nat} :
    ∀ (b : Bool) (l : List Nat), c ∈ collapseAux b l → c = 32 ∨ c ∈ l := by
  intro b l
  induction l generalizing b with
  | nil => simp [collapseAux]
  | cons d ds ih =>
    intro hmem
    by_cases h : isPySpace d = true
    · have hrec : c ∈ collapseAux true ds → c = 32 ∨ c ∈ d :: ds := by
        intro hm
        rcases ih true hm with h32 | hin
        · exact Or.inl h32
        · exact Or.inr (List.mem_cons.mpr (Or.inr hin))
      cases b with
      | true =>
        simp only [collapseAux, if_pos h, if_pos rfl] at hmem
        exact hrec hmem
      | false =>
        simp only [collapseAux, if_pos h] at hmem
        rcases List.mem_cons.mp hmem with h32 | hm
        · exact Or.inl h32
        · exact hrec hm
    · simp only [collapseAux, if_neg h] at hmem
      rcases List.mem_cons.mp hmem with hdc | hm
      · exact Or.inr (List.mem_cons.mpr (Or.inl hdc))
      · rcases ih false hm with h32 | hin
        · exact Or.inl h32
        · exact Or.inr (List.mem_cons.mpr (Or.inr hin))

theorem lowerChar_idem (n : Nat) : lowerChar (lowerChar n) = lowerChar n := by
  unfold lowerChar
  by_cases h : 65 ≤ n ∧ n ≤ 90
  · simp only [if_pos h]
    rw [if_neg (by omega)]
  · simp only [if_neg h]

/-! ### Claim theorems -/

/-- C5: `normalize` is total, sends empty input to the empty string, and on
any input agrees with the specification-side normalization: lowercase the
input, then replace every maximal whitespace run by a single space, with no
trimming of leading or trailing runs (each becomes a single space). -/
theorem C5_normalize_eq_specNormalize (s : List Nat) :
    normalize s = specNormalize s ∧ normalize [] = [] := by
  refine ⟨?_, rfl⟩
  unfold normalize specNormalize
  by_cases hs : s = []
  · subst hs; rfl
  · rw [if_neg hs, specCollapse_eq_collapseAux]

/-- C6: normalization is idempotent: `normalize (normalize x) = normalize x`
for every string x. -/
theorem C6_normalize_idempotent (s : List Nat) :
    normalize (normalize s) = normalize s := by
  unfold normalize
  by_cases hs : s = []
  · simp [hs]
  · rw [if_neg hs]
    by_cases hr : collapseAux false (s.map lowerChar) = []
    · rw [if_pos hr, hr]
    · rw [if_neg hr]
      have hfix : ∀ c ∈ collapseAux false (s.map lowerChar), lowerChar c = c := by
        intro c hc
        rcases mem_collapseAux false _ hc with h32 | hm
        · subst h32; rfl
        · rcases List.mem_map.mp hm with ⟨a, _, ha⟩
          rw [← ha]; exact lowerChar_idem a
      have hmap : (collapseAux false (s.map lowerChar)).map lowerChar =
          collapseAux false (s.map lowerChar) := by
        calc (collapseAux false (s.map lowerChar)).map lowerChar
            = (collapseAux false (s.map lowerChar)).map id := List.map_congr_left hfix
          _ = _ := List.map_id _
      rw [hmap, (collapseAux_idem _).1]

/-- C1: `matches_keywords` accepts a post exactly when the normalized
concatenation of title, one space, and selftext contains no bad phrase,
contains at least one help signal, and contains at least one embedded
keyword; in particular a bad phrase forces rejection. -/
theorem C1_matches_keywords_iff (post : Post) :
    Insights.matches_keywords post = true ↔
      ((∀ phrase ∈ Insights.BAD_PHRASES, ¬ phrase <:+: matchText post) ∧
       (∃ signal ∈ Insights.HELP_SIGNALS, signal <:+: matchText post) ∧
       (∃ keyword ∈ Insights.KEYWORDS, keyword <:+: matchText post)) := by
  simp only [Insights.matches_keywords]
  split_ifs with h1 h2
  · rw [anyContains_iff] at h1
    simp only [Bool.false_eq_true, false_iff]
    rintro ⟨hno, -, -⟩
    obtain ⟨p, hp, hinf⟩ := h1
    exact hno p hp hinf
  · rw [anyContains_iff] at h2
    rw [anyContains_iff]
    constructor
    · intro hkw
      refine ⟨?_, h2, hkw⟩
      intro p hp hinf
      exact h1 (anyContains_iff.mpr ⟨p, hp, hinf⟩)
    · rintro ⟨-, -, hkw⟩
      exact hkw
  · simp only [Bool.false_eq_true, false_iff]
    rintro ⟨-, hsig, -⟩
    exact h2 (anyContains_iff.mpr hsig)

/-- C2 (amended): in the insights variant of `assign_theme` the
analog/sensor group is checked before the build/flash-error group, so a
post containing an analog/sensor term and an error term but no power/wiring
or communication term is classified `AnalogAndSensors`; the scraper variant
checks the error group first and classifies such a post
`BuildCompileErrors` (see the counterexample). -/
theorem C2_insights_analog_before_error (post : Post)
    (ha : ∃ k ∈ Insights.ANALOG_GROUP, k <:+: matchText post)
    (he : ∃ k ∈ Insights.ERROR_GROUP, k <:+: matchText post)
    (hw : ∀ k ∈ Insights.WIRING_GROUP, ¬ k <:+: matchText post)
    (hc : ∀ k ∈ Insights.COMM_GROUP, ¬ k <:+: matchText post) :
    Insights.assign_theme post = Theme.AnalogAndSensors := by
  have h1 : ¬ Insights.WIRING_GROUP.any (fun k => containsSub k (matchText post)) = true := by
    intro h
    obtain ⟨k, hk, hinf⟩ := anyContains_iff.mp h
    exact hw k hk hinf
  have h2 : ¬ Insights.COMM_GROUP.any (fun k => containsSub k (matchText post)) = true := by
    intro h
    obtain ⟨k, hk, hinf⟩ := anyContains_iff.mp h
    exact hc k hk hinf
  have h3 : Insights.ANALOG_GROUP.any (fun k => containsSub k (matchText post)) = true :=
    anyContains_iff.mpr ha
  simp only [Insights.assign_theme]
  rw [if_neg h1, if_neg h2, if_pos h3]

/-- C2 counterexample: the post "sensor error" satisfies every hypothesis
of the claim, yet the scraper variant of `assign_theme` cited by the claim
returns `BuildCompileErrors`, not `AnalogAndSensors`. -/
theorem C2_counterexample :
    (∃ k ∈ Insights.ANALOG_GROUP, k <:+: matchText postSensorError) ∧
    (∃ k ∈ Insights.ERROR_GROUP, k <:+: matchText postSensorError) ∧
    (∀ k ∈ Insights.WIRING_GROUP, ¬ k <:+: matchText postSensorError) ∧
    (∀ k ∈ Insights.COMM_GROUP, ¬ k <:+: matchText postSensorError) ∧
    Scraper.assign_theme postSensorError = Theme.BuildCompileErrors ∧
    Scraper.assign_theme postSensorError ≠ Theme.AnalogAndSensors := by
  decide

/-- C2 witness: the insights variant classifies the same post
`AnalogAndSensors`. -/
theorem C2_witness : Insights.assign_theme postSensorError = Theme.AnalogAndSensors :=
  C2_insights_analog_before_error postSensorError (by decide) (by decide) (by decide) (by decide)

/-- C3: a post whose normalized text contains both "voltage" and "error" is
classified `WiringAndPower` by both variants of `assign_theme`, because the
power/wiring group is evaluated first. -/
theorem C3_voltage_error_wiring (post : Post)
    (hv : codes "voltage" <:+: matchText post)
    (he : codes "error" <:+: matchText post) :
    Insights.assign_theme post = Theme.WiringAndPower ∧
    Scraper.assign_theme post = Theme.WiringAndPower := by
  have h1 : Insights.WIRING_GROUP.any (fun k => containsSub k (matchText post)) = true :=
    anyContains_iff.mpr ⟨codes "voltage", by decide, hv⟩
  have h2 : Scraper.WIRING_GROUP.any (fun k => containsSub k (matchText post)) = true :=
    anyContains_iff.mpr ⟨codes "voltage", by decide, hv⟩
  constructor
  · simp only [Insights.assign_theme]
    rw [if_pos h1]
  · simp only [Scraper.assign_theme]
    rw [if_pos h2]

/-- C3 witness at the concrete post "voltage error on upload". -/
theorem C3_witness :
    Insights.assign_theme postVoltageError = Theme.WiringAndPower ∧
    Scraper.assign_theme postVoltageError = Theme.WiringAndPower :=
  C3_voltage_error_wiring postVoltageError (by decide) (by decide)

/-- C4: `assign_theme` is total — every post receives one of the five theme
labels — and a post containing no member of any of the four keyword groups
receives the fallback `GeneralBeginnerHelp`. -/
theorem C4_assign_theme_total_and_fallback (post : Post) :
    (Insights.assign_theme post = Theme.WiringAndPower ∨
     Insights.assign_theme post = Theme.Communication ∨
     Insights.assign_theme post = Theme.AnalogAndSensors ∨
     Insights.assign_theme post = Theme.BuildCompileErrors ∨
     Insights.assign_theme post = Theme.GeneralBeginnerHelp) ∧
    ((∀ k ∈ Insights.WIRING_GROUP ++ Insights.COMM_GROUP ++
        Insights.ANALOG_GROUP ++ Insights.ERROR_GROUP, ¬ k <:+: matchText post) →
      Insights.assign_theme post = Theme.GeneralBeginnerHelp) := by
  constructor
  · simp only [Insights.assign_theme]
    split_ifs
    · exact Or.inl rfl
    · exact Or.inr (Or.inl rfl)
    · exact Or.inr (Or.inr (Or.inl rfl))
    · exact Or.inr (Or.inr (Or.inr (Or.inl rfl)))
    · exact Or.inr (Or.inr (Or.inr (Or.inr rfl)))
  · intro hno
    have hng : ∀ G : List (List Nat),
        (∀ k ∈ G, k ∈ Insights.WIRING_GROUP ++ Insights.COMM_GROUP ++
          Insights.ANALOG_GROUP ++ Insights.ERROR_GROUP) →
        ¬ G.any (fun k => containsSub k (matchText post)) = true := by
      intro G hsub h
      obtain ⟨k, hk, hinf⟩ := anyContains_iff.mp h
      exact hno k (hsub k hk) hinf
    simp only [Insights.assign_theme]
    rw [if_neg (hng _ (by intro k hk; simp [hk])),
      if_neg (hng _ (by intro k hk; simp [hk])),
      if_neg (hng _ (by intro k hk; simp [hk])),
      if_neg (hng _ (by intro k hk; simp [hk]))]

set_option maxRecDepth 100000 in
/-- C4 witness: the spec's fallback example receives
`GeneralBeginnerHelp`. -/
theorem C4_witness : Insights.assign_theme postFallback = Theme.GeneralBeginnerHelp :=
  (C4_assign_theme_total_and_fallback postFallback).2 (by decide)

/-- C7: keyword matching is substring containment, not word-boundary
matching: any post whose normalized text contains "serialization" passes
the keyword scan of the canonical 15-term list, via the keyword
"serial". -/
theorem C7_serialization_matches_serial (post : Post)
    (h : codes "serialization" <:+: matchText post) :
    (∃ keyword ∈ Insights.KEYWORDS, keyword <:+: matchText post) ∧
    Insights.KEYWORDS.any (fun keyword => containsSub keyword (matchText post)) = true := by
  have hser : codes "serial" <:+: matchText post :=
    List.IsInfix.trans (by decide) h
  exact ⟨⟨codes "serial", by decide, hser⟩,
    anyContains_iff.mpr ⟨codes "serial", by decide, hser⟩⟩

/-- C7 witness at a concrete post containing "serialization". -/
theorem C7_witness :
    (∃ keyword ∈ Insights.KEYWORDS, keyword <:+: matchText postSerialization) ∧
    Insights.KEYWORDS.any (fun keyword => containsSub keyword (matchText postSerialization)) = true :=
  C7_serialization_matches_serial postSerialization (by decide)

/-- C8: the classifier reads only `title` and `selftext`: two posts that
agree on those two fields receive the same `matches_keywords` verdict and
the same theme, whatever their `subreddit`, `score`, `num_comments` and
`url`; repeated calls on one post trivially agree because both functions
are pure. -/
theorem C8_depends_only_on_text (p q : Post)
    (ht : p.title = q.title) (hs : p.selftext = q.selftext) :
    Insights.matches_keywords p = Insights.matches_keywords q ∧
    Insights.assign_theme p = Insights.assign_theme q := by
  have hmt : matchText p = matchText q := by
    unfold matchText
    rw [ht, hs]
  constructor
  · unfold Insights.matches_keywords
    rw [hmt]
  · unfold Insights.assign_theme
    rw [hmt]

/-- C8 witness: two concrete posts sharing text but nothing else. -/
theorem C8_witness :
    Insights.matches_keywords postMetaA = Insights.matches_keywords postMetaB ∧
    Insights.assign_theme postMetaA = Insights.assign_theme postMetaB :=
  C8_depends_only_on_text postMetaA postMetaB rfl rfl

/-- C9: the "voltage divider" entry of the analog/sensor group can never
decide the theme: any text containing "voltage divider" also contains
"voltage", a power/wiring term, so `assign_theme` answers
`WiringAndPower`. -/
theorem C9_voltage_divider_shadowed (post : Post)
    (h : codes "voltage divider" <:+: matchText post) :
    Insights.assign_theme post = Theme.WiringAndPower := by
  have hv : codes "voltage" <:+: matchText post :=
    List.IsInfix.trans (by decide) h
  have h1 : Insights.WIRING_GROUP.any (fun k => containsSub k (matchText post)) = true :=
    anyContains_iff.mpr ⟨codes "voltage", by decide, hv⟩
  simp only [Insights.assign_theme]
  rw [if_pos h1]

/-- C9 witness at a concrete post containing "voltage divider". -/
theorem C9_witness : Insights.assign_theme postVoltageDivider = Theme.WiringAndPower :=
  C9_voltage_divider_shadowed postVoltageDivider (by decide)

/-- C10: the bare substring "can" in the communication group shadows all
later groups in both variants: a post containing "can" (so in particular
"cant", "can\x27t", "cannot" or "scan") is classified `WiringAndPower` or
`Communication`, never a later theme. -/
theorem C10_can_shadows_later_groups (post : Post)
    (h : codes "can" <:+: matchText post) :
    (Insights.assign_theme post = Theme.WiringAndPower ∨
     Insights.assign_theme post = Theme.Communication) ∧
    (Scraper.assign_theme post = Theme.WiringAndPower ∨
     Scraper.assign_theme post = Theme.Communication) := by
  have hci : Insights.COMM_GROUP.any (fun k => containsSub k (matchText post)) = true :=
    anyContains_iff.mpr ⟨codes "can", by decide, h⟩
  have hcs : Scraper.COMM_GROUP.any (fun k => containsSub k (matchText post)) = true :=
    anyContains_iff.mpr ⟨codes "can", by decide, h⟩
  constructor
  · by_cases hw : Insights.WIRING_GROUP.any (fun k => containsSub k (matchText post)) = true
    · refine Or.inl ?_
      simp only [Insights.assign_theme]
      rw [if_pos hw]
    · refine Or.inr ?_
      simp only [Insights.assign_theme]
      rw [if_neg hw, if_pos hci]
  · by_cases hw : Scraper.WIRING_GROUP.any (fun k => containsSub k (matchText post)) = true
    · refine Or.inl ?_
      simp only [Scraper.assign_theme]
      rw [if_pos hw]
    · refine Or.inr ?_
      simp only [Scraper.assign_theme]
      rw [if_neg hw, if_pos hcs]

/-- C10 witness: "cant get my code to compile" lands in `Communication`
despite containing the error-group term "compile". -/
theorem C10_witness :
    (Insights.assign_theme postCant = Theme.WiringAndPower ∨
     Insights.assign_theme postCant = Theme.Communication) ∧
    (Scraper.assign_theme postCant = Theme.WiringAndPower ∨
     Scraper.assign_theme postCant = Theme.Communication) :=
  C10_can_shadows_later_groups postCant (by decide)

end Unwrap
